import Mathlib

/-!
Shallow embedding of the Paytos custodial transaction engine
(src/services/transaction service and src/utils/wallet.ts), together with
proofs about the propose/confirm/execute pipeline.

Conventions of the embedding:
* The MongoDB collections (User, Transaction, PendingTransaction) become
  lists of records inside an explicit `DBState`; `findOne`/`findById`
  become `List.find?`, `save` on a fresh document appends, `save` on a
  loaded document replaces the record with the same id, `remove` filters
  the record out by id.
* `async`/`await` code is sequential, so every service function is a pure
  function from an environment (the external oracles: clock, randomness,
  key vault, settlement RPC) and a `DBState` to a `RunResult`: an
  `Except` outcome (JS `throw` becomes `Except.error` of the message),
  the new `DBState`, and a log of externally visible events, in the order
  the source performs them.
* JS numbers used for token amounts become `Rat`; `tokenBalances[token]`
  on a key outside the schema yields JS `undefined`, whose `<` comparison
  is always false, modelled by `jsLtUndef`.
-/

/-- Status field of a Transaction document: the state machine
`pending → completed | failed`. -/
inductive TxStatus
  | pending
  | completed
  | failed
deriving DecidableEq, Repr

/-- Rendering of the status enum, used in the error message
`Transaction is already ...` thrown by `executeTransaction`. -/
def statusString : TxStatus → String
  | .pending => "pending"
  | .completed => "completed"
  | .failed => "failed"

/-- Cached token balances stored on a User document (the four keys of the
`tokenBalances` subdocument in the User schema). -/
structure Balances where
  sol : Rat
  usdc : Rat
  usdt : Rat
  pyusd : Rat
deriving DecidableEq, Repr

/-- Field access `user.tokenBalances[token]`: a key outside the schema
yields JS `undefined`, modelled as `none`. -/
def Balances.get : Balances → String → Option Rat
  | b, "SOL" => some b.sol
  | b, "USDC" => some b.usdc
  | b, "USDT" => some b.usdt
  | b, "PYUSD" => some b.pyusd
  | _, _ => none

/-- JS comparison `x < y` where `x` may be `undefined`: any comparison
with `undefined` is false. -/
def jsLtUndef : Option Rat → Rat → Bool
  | some x, y => decide (x < y)
  | none, _ => false

/-- User document (src/models/User as used by the transaction service). -/
structure UserRec where
  id : Nat
  phoneNumber : String
  encryptedWalletKey : String
  walletAddress : String
  pin : String
  isVerified : Bool
  tokenBalances : Balances
deriving DecidableEq, Repr

/-- Transaction document: the durable ledger entry created by
`createTransaction` and driven to a terminal status by
`executeTransaction`. -/
structure TransactionRec where
  id : Nat
  sender : Nat
  recipient : Nat
  senderPhone : String
  recipientPhone : String
  amount : Rat
  token : String
  status : TxStatus
  signature : Option String
  errorMessage : Option String
  completedAt : Option Nat
deriving DecidableEq, Repr

/-- PendingTransaction document: an unconfirmed proposal awaiting the
confirmation code, created by `createPendingTransaction`. -/
structure PendingRec where
  id : Nat
  senderPhone : String
  recipientPhone : String
  amount : Rat
  token : String
  confirmationCode : String
  expiresAt : Nat
deriving DecidableEq, Repr

/-- The persistent store: the three collections plus fresh-id counters
standing in for MongoDB ObjectId generation. -/
structure DBState where
  users : List UserRec
  transactions : List TransactionRec
  pendings : List PendingRec
  nextUserId : Nat
  nextTxId : Nat
  nextPendingId : Nat
deriving DecidableEq, Repr

/-- Externally visible effects, recorded in source order: document saves,
pending-transfer removal, the settlement-adapter call with its outcome,
and the balance-reconciliation write of `updateUserBalances`. -/
inductive Event
  | saveUser (id : Nat)
  | saveTransaction (id : Nat) (status : TxStatus)
  | savePending (id : Nat)
  | removePending (id : Nat)
  | settlementOk (token : String) (signature : String)
  | settlementErr (token : String) (msg : String)
  | reconcile (userId : Nat)
deriving DecidableEq, Repr

/-- Outcome of one service call: the returned value or thrown error, the
database after the call, and the event log of the call. -/
structure RunResult (α : Type) where
  val : Except String α
  db : DBState
  log : List Event

deriving instance DecidableEq for Except

/-- Decrypted wallet as returned by `walletUtils.decryptWallet`. -/
structure Wallet where
  publicKey : String
  secretKey : String
deriving DecidableEq, Repr

/-- External oracles of the transaction service: clock, the raw random
code (the result of the JS `Math.random().toString(36).substring(2, 8)`),
the keypair minted by `createEncryptedWallet` for a placeholder
recipient, the key vault, and the settlement adapter (`transferSol` and
`transferToken` both return a signature or throw). -/
structure Env where
  now : Nat
  randCode : String
  freshWalletKey : String
  freshWalletAddress : String
  decryptWallet : String → Except String Wallet
  settle : Wallet → String → Rat → String → Except String String

/-- External oracles of wallet.ts balance reads: `connection.getBalance`
(lamports, may throw) and the token-account lookup plus amount read of
`getTokenAccount` (token units, may throw). -/
structure WalletEnv where
  getBalance : String → Except String Int
  getTokenAccount : String → String → Except String Int

/-- Token-mint table from config/config.js (default devnet values of
`config.supportedTokens.mints`); an unlisted symbol yields `undefined`. -/
def mints : String → Option String
  | "USDC" => some "EPjFWdd5AufqSSqeM2qN1xzybapC8G4wEGGkZwyTDt1v"
  | "USDT" => some "Es9vMFrzaCERmJfrF4H2FYD4KCoNkY11McCe8BenwNYB"
  | "PYUSD" => some "9idXDPGb5jfwaf5fxjiDHjcugpYVrJHiM4rR8G9yqXW7"
  | _ => none

/-- Lower-to-upper table of the 26 ASCII letters. -/
def lowerUpperTable : List (Char × Char) :=
  [('a', 'A'), ('b', 'B'), ('c', 'C'), ('d', 'D'), ('e', 'E'), ('f', 'F'),
   ('g', 'G'), ('h', 'H'), ('i', 'I'), ('j', 'J'), ('k', 'K'), ('l', 'L'),
   ('m', 'M'), ('n', 'N'), ('o', 'O'), ('p', 'P'), ('q', 'Q'), ('r', 'R'),
   ('s', 'S'), ('t', 'T'), ('u', 'U'), ('v', 'V'), ('w', 'W'), ('x', 'X'),
   ('y', 'Y'), ('z', 'Z')]

/-- ASCII uppercasing of one character, modelling the effect of JS
`String.prototype.toUpperCase` on the alphabet relevant here (generated
codes use only digits and ASCII lowercase). -/
def jsCharToUpper (c : Char) : Char :=
  match lowerUpperTable.find? (fun p => p.fst == c) with
  | some p => p.snd
  | none => c

/-- JS `s.toUpperCase()` on a string, character-wise. -/
def jsToUpper (s : String) : String :=
  ⟨s.data.map jsCharToUpper⟩

/-- Boolean check that an `Except` outcome is a normal return. -/
def exceptIsOk : Except String TransactionRec → Bool
  | .ok _ => true
  | .error _ => false

/-- Embedding of `checkTokenBalance` (src/utils/wallet.ts): native SOL
balance reads propagate errors; for other tokens an unsupported symbol
throws before the try block, and inside the try block any failure of the
token-account lookup or amount read is swallowed and reported as 0. -/
def checkTokenBalance (wenv : WalletEnv) (walletAddress token : String) :
    Except String Rat :=
  if token == "SOL" then
    match wenv.getBalance walletAddress with
    | .error e => .error e
    | .ok bal => .ok ((bal : Rat) / 1000000000)
  else
    match mints token with
    | none => .error ("Unsupported token: " ++ token)
    | some tokenMint =>
      match wenv.getTokenAccount walletAddress tokenMint with
      | .error _ => .ok 0
      | .ok amount => .ok ((amount : Rat) / 1000000)

/-- Query `User.findOne({ phoneNumber })`. -/
def findUserByPhone (db : DBState) (phone : String) : Option UserRec :=
  db.users.find? (fun u => u.phoneNumber == phone)

/-- Query `User.findById`. -/
def findUserById (db : DBState) (uid : Nat) : Option UserRec :=
  db.users.find? (fun u => u.id == uid)

/-- Query `TransactionModel.findById`. -/
def findTxById (db : DBState) (tid : Nat) : Option TransactionRec :=
  db.transactions.find? (fun t => t.id == tid)

/-- Match predicate of the `PendingTransaction.findOne({ senderPhone,
confirmationCode: confirmationCode.toUpperCase() })` query: the attempted
code is uppercased, the stored one compared verbatim, and no expiry
condition appears. -/
def pendingMatches (p : PendingRec) (senderPhone code : String) : Bool :=
  p.senderPhone == senderPhone && p.confirmationCode == jsToUpper code

/-- Query `PendingTransaction.findOne({ senderPhone, confirmationCode:
confirmationCode.toUpperCase() })`. -/
def findPendingTx (db : DBState) (senderPhone code : String) :
    Option PendingRec :=
  db.pendings.find? (fun p => pendingMatches p senderPhone code)

/-- Mongoose `save()` on a loaded Transaction document: replace the
record carrying the same id. -/
def updateTxList (ts : List TransactionRec) (t : TransactionRec) :
    List TransactionRec :=
  ts.map (fun x => if x.id == t.id then t else x)

/-- Mongoose `save()` on a loaded User document. -/
def updateUserList (us : List UserRec) (u : UserRec) : List UserRec :=
  us.map (fun x => if x.id == u.id then u else x)

/-- Embedding of `updateUserBalances` (transaction service): load the
user, decrypt the wallet, re-read the SOL balance then each supported
token balance from the settlement layer, and save the refreshed cache.
Every failure is rethrown to the caller. -/
def updateUserBalances (env : Env) (wenv : WalletEnv) (db : DBState)
    (userId : Nat) : RunResult Unit :=
  match findUserById db userId with
  | none => ⟨.error "User not found", db, []⟩
  | some user =>
    match env.decryptWallet user.encryptedWalletKey with
    | .error e => ⟨.error e, db, []⟩
    | .ok w =>
      match checkTokenBalance wenv w.publicKey "SOL" with
      | .error e => ⟨.error e, db, []⟩
      | .ok solBal =>
        match checkTokenBalance wenv w.publicKey "USDC" with
        | .error e => ⟨.error e, db, []⟩
        | .ok usdcBal =>
          match checkTokenBalance wenv w.publicKey "USDT" with
          | .error e => ⟨.error e, db, []⟩
          | .ok usdtBal =>
            match checkTokenBalance wenv w.publicKey "PYUSD" with
            | .error e => ⟨.error e, db, []⟩
            | .ok pyusdBal =>
              let user' := { user with
                tokenBalances := ⟨solBal, usdcBal, usdtBal, pyusdBal⟩ }
              ⟨.ok (), { db with users := updateUserList db.users user' },
               [Event.reconcile userId]⟩

/-- Tail of `createTransaction`: build the Transaction document in
`pending` status and save it. -/
def createTransactionFinish (db : DBState) (sender recipient : UserRec)
    (senderPhone recipientPhone : String) (amount : Rat) (token : String)
    (lg : List Event) : RunResult TransactionRec :=
  let tx : TransactionRec :=
    { id := db.nextTxId, sender := sender.id, recipient := recipient.id,
      senderPhone := senderPhone, recipientPhone := recipientPhone,
      amount := amount, token := token, status := .pending,
      signature := none, errorMessage := none, completedAt := none }
  ⟨.ok tx,
   { db with transactions := db.transactions ++ [tx],
             nextTxId := db.nextTxId + 1 },
   lg ++ [Event.saveTransaction tx.id .pending]⟩

/-- Placeholder User document built by `createTransaction` when the
recipient phone number has no Account yet: fresh custodial keypair from
`createEncryptedWallet`, the fixed temporary pin, unverified, zero
balances (schema defaults). -/
def placeholderUser (env : Env) (db : DBState) (recipientPhone : String) :
    UserRec :=
  { id := db.nextUserId, phoneNumber := recipientPhone,
    encryptedWalletKey := env.freshWalletKey,
    walletAddress := env.freshWalletAddress,
    pin := "000000", isVerified := false,
    tokenBalances := ⟨0, 0, 0, 0⟩ }

/-- Embedding of `createTransaction` (transaction service): find the
sender, check the cached balance, find or create the recipient (a
placeholder User with the fixed pin and `isVerified:false` when absent),
then write the `pending` Transaction. -/
def createTransaction (env : Env) (db : DBState)
    (senderPhone recipientPhone : String) (amount : Rat) (token : String) :
    RunResult TransactionRec :=
  match findUserByPhone db senderPhone with
  | none => ⟨.error "Sender not found", db, []⟩
  | some sender =>
    if jsLtUndef (sender.tokenBalances.get token) amount then
      ⟨.error ("Insufficient " ++ token ++ " balance"), db, []⟩
    else
      match findUserByPhone db recipientPhone with
      | some recipient =>
        createTransactionFinish db sender recipient senderPhone
          recipientPhone amount token []
      | none =>
        let recipient := placeholderUser env db recipientPhone
        let db1 := { db with users := db.users ++ [recipient],
                             nextUserId := db.nextUserId + 1 }
        createTransactionFinish db1 sender recipient senderPhone
          recipientPhone amount token [Event.saveUser recipient.id]

/-- Catch handler of `executeTransaction`: re-load the transaction by id
and, when present, overwrite its status to `failed` and its
`errorMessage` with the caught message, then save. -/
def execFail (db : DBState) (tid : Nat) (msg : String) :
    DBState × List Event :=
  match findTxById db tid with
  | none => (db, [])
  | some tx =>
    let tx' := { tx with status := .failed, errorMessage := some msg }
    ({ db with transactions := updateTxList db.transactions tx' },
     [Event.saveTransaction tid .failed])

/-- Embedding of `executeTransaction` (transaction service): load the
transaction, reject a non-`pending` status, load both users, decrypt the
sender wallet, dispatch the settlement transfer (`transferSol` for SOL,
`transferToken` otherwise — both modelled by the `settle` oracle), mark
`completed` with the signature, then refresh both balance caches. Every
thrown error funnels through the catch handler `execFail` before being
rethrown. -/
def executeTransaction (env : Env) (wenv : WalletEnv) (db : DBState)
    (tid : Nat) : RunResult TransactionRec :=
  match findTxById db tid with
  | none => ⟨.error "Transaction not found", db, []⟩
  | some tx =>
    if tx.status != .pending then
      let msg := "Transaction is already " ++ statusString tx.status
      let fb := execFail db tid msg
      ⟨.error msg, fb.fst, fb.snd⟩
    else
      match findUserById db tx.sender, findUserById db tx.recipient with
      | some sender, some recipient =>
        match env.decryptWallet sender.encryptedWalletKey with
        | .error e =>
          let fb := execFail db tid e
          ⟨.error e, fb.fst, fb.snd⟩
        | .ok senderWallet =>
          match env.settle senderWallet recipient.walletAddress tx.amount
              tx.token with
          | .error e =>
            let fb := execFail db tid e
            ⟨.error e, fb.fst, Event.settlementErr tx.token e :: fb.snd⟩
          | .ok signature =>
            let tx1 := { tx with status := .completed,
                                 signature := some signature,
                                 completedAt := some env.now }
            let db1 := { db with
              transactions := updateTxList db.transactions tx1 }
            let r1 := updateUserBalances env wenv db1 tx.sender
            match r1.val with
            | .error e =>
              let fb := execFail r1.db tid e
              ⟨.error e, fb.fst,
               Event.settlementOk tx.token signature ::
                 Event.saveTransaction tid .completed :: (r1.log ++ fb.snd)⟩
            | .ok _ =>
              let r2 := updateUserBalances env wenv r1.db tx.recipient
              match r2.val with
              | .error e =>
                let fb := execFail r2.db tid e
                ⟨.error e, fb.fst,
                 Event.settlementOk tx.token signature ::
                   Event.saveTransaction tid .completed ::
                     (r1.log ++ r2.log ++ fb.snd)⟩
              | .ok _ =>
                ⟨.ok tx1, r2.db,
                 Event.settlementOk tx.token signature ::
                   Event.saveTransaction tid .completed :: (r1.log ++ r2.log)⟩
      | _, _ =>
        let fb := execFail db tid "Sender or recipient not found"
        ⟨.error "Sender or recipient not found", fb.fst, fb.snd⟩

/-- Embedding of `createPendingTransaction` (transaction service):
uppercase the random code, stamp `expiresAt` five minutes (300000 ms)
from now, and insert the PendingTransaction document. Nothing is read or
removed: prior entries for the sender are untouched. -/
def createPendingTransaction (env : Env) (db : DBState)
    (senderPhone recipientPhone : String) (amount : Rat) (token : String) :
    RunResult PendingRec :=
  let p : PendingRec :=
    { id := db.nextPendingId, senderPhone := senderPhone,
      recipientPhone := recipientPhone, amount := amount, token := token,
      confirmationCode := jsToUpper env.randCode,
      expiresAt := env.now + 300000 }
  ⟨.ok p,
   { db with pendings := db.pendings ++ [p],
             nextPendingId := db.nextPendingId + 1 },
   [Event.savePending p.id]⟩

/-- Embedding of `confirmTransaction` (transaction service): look the
proposal up by sender and uppercased code, create and execute the
Transaction from its frozen tuple, and only after a fully successful
execution remove the PendingTransaction document; any thrown error is
rethrown before the removal. -/
def confirmTransaction (env : Env) (wenv : WalletEnv) (db : DBState)
    (senderPhone confirmationCode : String) : RunResult TransactionRec :=
  match findPendingTx db senderPhone confirmationCode with
  | none => ⟨.error "Invalid confirmation code or expired transaction", db, []⟩
  | some p =>
    let r1 := createTransaction env db p.senderPhone p.recipientPhone
      p.amount p.token
    match r1.val with
    | .error e => ⟨.error e, r1.db, r1.log⟩
    | .ok tx =>
      let r2 := executeTransaction env wenv r1.db tx.id
      match r2.val with
      | .error e => ⟨.error e, r2.db, r1.log ++ r2.log⟩
      | .ok ctx =>
        ⟨.ok ctx,
         { r2.db with
           pendings := r2.db.pendings.filter (fun q => q.id != p.id) },
         r1.log ++ r2.log ++ [Event.removePending p.id]⟩

/-! Concrete fixtures used by witnesses and counterexamples. -/

/-- Decrypted sender wallet used by the concrete runs. -/
def wOk : Wallet := ⟨"senderPub", "senderSec"⟩

/-- Environment whose oracles all succeed: settlement returns signature
`sig123`, the vault decrypts, the raw random code is `ab12cd`. -/
def envOk : Env :=
  { now := 400000, randCode := "ab12cd",
    freshWalletKey := "freshEnc", freshWalletAddress := "freshAddr",
    decryptWallet := fun _ => .ok wOk,
    settle := fun _ _ _ _ => .ok "sig123" }

/-- Balance-read oracles that all succeed with zero. -/
def wenvOk : WalletEnv :=
  { getBalance := fun _ => .ok 0, getTokenAccount := fun _ _ => .ok 0 }

/-- Registered sender with 10 of every token. -/
def senderU : UserRec :=
  { id := 1, phoneNumber := "+1", encryptedWalletKey := "encS",
    walletAddress := "addrS", pin := "1111", isVerified := true,
    tokenBalances := ⟨10, 10, 10, 10⟩ }

/-- Registered recipient. -/
def recipU : UserRec :=
  { id := 2, phoneNumber := "+2", encryptedWalletKey := "encR",
    walletAddress := "addrR", pin := "2222", isVerified := true,
    tokenBalances := ⟨0, 0, 0, 0⟩ }

/-- Pending transfer of 3 USDC from `+1` to `+2`, code `AB12CD`, whose
`expiresAt` (1000) is long before `envOk.now` (400000). -/
def pendAB : PendingRec :=
  { id := 5, senderPhone := "+1", recipientPhone := "+2", amount := 3,
    token := "USDC", confirmationCode := "AB12CD", expiresAt := 1000 }

/-- Store with both users registered and the one pending transfer. -/
def dbBase : DBState :=
  { users := [senderU, recipU], transactions := [], pendings := [pendAB],
    nextUserId := 3, nextTxId := 0, nextPendingId := 6 }

/-- Terminal (completed) transaction on file, settlement reference
`sig123`. -/
def txDone : TransactionRec :=
  { id := 0, sender := 1, recipient := 2, senderPhone := "+1",
    recipientPhone := "+2", amount := 3, token := "USDC",
    status := .completed, signature := some "sig123",
    errorMessage := none, completedAt := some 111 }

/-- Store holding only the completed transaction `txDone`. -/
def dbTerminal : DBState :=
  { users := [senderU, recipU], transactions := [txDone], pendings := [],
    nextUserId := 3, nextTxId := 1, nextPendingId := 6 }

/-- Pending transaction on file, ready for `executeTransaction`. -/
def txPend : TransactionRec :=
  { id := 0, sender := 1, recipient := 2, senderPhone := "+1",
    recipientPhone := "+2", amount := 3, token := "USDC",
    status := .pending, signature := none,
    errorMessage := none, completedAt := none }

/-- Store holding only the pending transaction `txPend`. -/
def dbPend : DBState :=
  { users := [senderU, recipU], transactions := [txPend], pendings := [],
    nextUserId := 3, nextTxId := 1, nextPendingId := 6 }

/-- Balance-read oracles whose native-balance RPC fails, so the
balance-reconciliation step (`updateUserBalances`) throws. -/
def wenvRpcDown : WalletEnv :=
  { getBalance := fun _ => .error "rpc down",
    getTokenAccount := fun _ _ => .ok 0 }

/-- Expected overwritten record of the C1 run: `txDone` flipped to
`failed` by the catch handler, settlement reference left populated. -/
def txDoneFailed : TransactionRec :=
  { txDone with
    status := .failed
    errorMessage := some "Transaction is already completed" }

/-- Expected completed record of the C3 run. -/
def txPendCompleted : TransactionRec :=
  { txPend with
    status := .completed
    signature := some "sig123"
    completedAt := some 400000 }

/-- Expected record of the C4 run: completed-then-flipped-to-failed, the
settlement reference still populated next to the reconciliation error. -/
def txPendFlipped : TransactionRec :=
  { txPend with
    status := .failed
    signature := some "sig123"
    errorMessage := some "rpc down"
    completedAt := some 400000 }

/-- C1. Invoking `executeTransaction` on the identifier of a terminal
(completed) Transaction is indeed rejected (it throws
`Transaction is already completed`) and dispatches no settlement call,
but the catch handler then re-loads the very same Transaction and
overwrites it: its status flips from `completed` to `failed` and its
`errorMessage` is set to the guard's own message, with the settlement
reference left populated — the terminal state is not left unchanged, so
the code contradicts the guard's evident intent. -/
theorem C1_terminal_transaction_overwritten :
    (executeTransaction envOk wenvOk dbTerminal 0).val =
        .error "Transaction is already completed"
    ∧ (executeTransaction envOk wenvOk dbTerminal 0).log =
        [Event.saveTransaction 0 .failed]
    ∧ findTxById (executeTransaction envOk wenvOk dbTerminal 0).db 0 =
        some txDoneFailed :=
  ⟨rfl, rfl, by decide⟩

/-- C3. A PendingTransfer whose `expiresAt` (1000) is far earlier than
the time of the confirm call (`envOk.now = 400000`) is nevertheless
found by `confirmTransaction` — the lookup never consults `expiresAt` —
so a Transaction is created, the settlement call is dispatched, and the
transfer completes, contrary to the claimed `NoSuchPendingTransfer`
failure. -/
theorem C3_expired_pending_executes :
    pendAB.expiresAt < envOk.now
    ∧ exceptIsOk (confirmTransaction envOk wenvOk dbBase "+1" "AB12CD").val
        = true
    ∧ (confirmTransaction envOk wenvOk dbBase "+1" "AB12CD").log =
        [Event.saveTransaction 0 .pending,
         Event.settlementOk "USDC" "sig123",
         Event.saveTransaction 0 .completed,
         Event.reconcile 1, Event.reconcile 2, Event.removePending 5]
    ∧ findTxById (confirmTransaction envOk wenvOk dbBase "+1" "AB12CD").db 0
        = some txPendCompleted :=
  ⟨by decide, rfl, rfl, by decide⟩

/-- C4. When the settlement call succeeds (signature `sig123`, status
saved as `completed`) and the subsequent balance-reconciliation step
fails (the native-balance RPC read throws `rpc down`), the catch handler
of `executeTransaction` re-loads the already-completed Transaction and
overwrites its status to `failed` with the reconciliation error as
`errorMessage`, the settlement reference still populated — reconciliation
failure does change the Transaction's status and error detail. -/
theorem C4_reconciliation_failure_flips_status :
    (executeTransaction envOk wenvRpcDown dbPend 0).val = .error "rpc down"
    ∧ (executeTransaction envOk wenvRpcDown dbPend 0).log =
        [Event.settlementOk "USDC" "sig123",
         Event.saveTransaction 0 .completed,
         Event.saveTransaction 0 .failed]
    ∧ findTxById (executeTransaction envOk wenvRpcDown dbPend 0).db 0 =
        some txPendFlipped :=
  ⟨rfl, rfl, by decide⟩

/-- C5. When the sender exists and the cached balance of the requested
token is below the requested amount, `createTransaction` throws
`Insufficient <token> balance` with the store byte-identical to before
and an empty event log: no Transaction is written and no placeholder
recipient is created — the balance check precedes every mutation. -/
theorem C5_insufficient_balance_aborts_before_writes
    (env : Env) (db : DBState) (senderPhone recipientPhone : String)
    (amount : Rat) (token : String) (sender : UserRec) (bal : Rat)
    (hs : findUserByPhone db senderPhone = some sender)
    (hb : sender.tokenBalances.get token = some bal)
    (hlt : bal < amount) :
    createTransaction env db senderPhone recipientPhone amount token =
      ⟨.error ("Insufficient " ++ token ++ " balance"), db, []⟩ := by
  unfold createTransaction
  rw [hs]
  simp [jsLtUndef, hb, hlt]

/-- Witness for C5: sender `+1` holds 10 USDC and requests 20. -/
theorem C5_insufficient_balance_aborts_before_writes_witness :
    (findUserByPhone dbBase "+1" = some senderU
     ∧ senderU.tokenBalances.get "USDC" = some 10 ∧ (10 : Rat) < 20)
    ∧ createTransaction envOk dbBase "+1" "+2" 20 "USDC" =
        ⟨.error ("Insufficient " ++ "USDC" ++ " balance"), dbBase, []⟩ :=
  ⟨⟨rfl, rfl, by norm_num⟩,
   C5_insufficient_balance_aborts_before_writes envOk dbBase "+1" "+2" 20
     "USDC" senderU 10 rfl rfl (by norm_num)⟩

/-- C10. For a non-native token with a configured mint, an error from the
token-account lookup or amount read makes `checkTokenBalance` return 0
instead of propagating the failure — bit-for-bit the result an oracle
reporting a genuinely empty account produces, so callers cannot tell a
transient read failure from an empty balance. -/
theorem C10_token_read_failure_reports_zero
    (wenv wenv0 : WalletEnv) (walletAddress token tokenMint e : String)
    (hnonnative : token ≠ "SOL")
    (hmint : mints token = some tokenMint)
    (herr : wenv.getTokenAccount walletAddress tokenMint = .error e)
    (hzero : wenv0.getTokenAccount walletAddress tokenMint = .ok 0) :
    checkTokenBalance wenv walletAddress token = .ok 0
    ∧ checkTokenBalance wenv walletAddress token =
        checkTokenBalance wenv0 walletAddress token := by
  unfold checkTokenBalance
  have ht : (token == "SOL") = false := by
    simpa using hnonnative
  rw [ht]
  simp only [Bool.false_eq_true, if_false, hmint, herr, hzero]
  norm_num

/-- Witness for C10: oracle failing with `boom` on USDC versus oracle
reporting an empty account. -/
theorem C10_token_read_failure_reports_zero_witness :
    ((("USDC" : String) ≠ "SOL")
     ∧ mints "USDC" = some "EPjFWdd5AufqSSqeM2qN1xzybapC8G4wEGGkZwyTDt1v")
    ∧ checkTokenBalance
        ⟨fun _ => .ok 0, fun _ _ => .error "boom"⟩ "addrS" "USDC" = .ok 0 :=
  ⟨⟨by decide, rfl⟩,
   (C10_token_read_failure_reports_zero
     ⟨fun _ => .ok 0, fun _ _ => .error "boom"⟩ wenvOk "addrS" "USDC"
     "EPjFWdd5AufqSSqeM2qN1xzybapC8G4wEGGkZwyTDt1v" "boom"
     (by decide) rfl rfl rfl).left⟩

/-- Environment whose settlement adapter rejects every transfer. -/
def envSettleFail : Env :=
  { envOk with settle := fun _ _ _ _ => .error "boom" }

/-- Counterexample to C2 as stated: when execution fails (settlement
rejected with `boom`), `confirmTransaction` rethrows before reaching
`pendingTx.remove()`, so the PendingTransfer is NOT consumed — it is
still on file and a later confirm with the same sender and code succeeds
(here once the adapter recovers), contradicting "on a failed execution
the entry is likewise consumed". -/
theorem C2_failed_execution_leaves_pending_confirmable :
    (confirmTransaction envSettleFail wenvOk dbBase "+1" "AB12CD").val =
        .error "boom"
    ∧ (confirmTransaction envSettleFail wenvOk dbBase "+1" "AB12CD").db.pendings
        = [pendAB]
    ∧ exceptIsOk (confirmTransaction envOk wenvOk
        (confirmTransaction envSettleFail wenvOk dbBase "+1" "AB12CD").db
        "+1" "AB12CD").val = true :=
  ⟨rfl, rfl, by decide⟩

/-- Environment minting the distinct confirmation code `XY9Z2K`. -/
def envNewCode : Env := { envOk with randCode := "xy9z2k" }

/-- Second pending transfer as inserted by `createPendingTransaction`
under `envNewCode` on top of `dbBase`. -/
def pendNew : PendingRec :=
  { id := 6, senderPhone := "+1", recipientPhone := "+2", amount := 4,
    token := "USDC", confirmationCode := "XY9Z2K", expiresAt := 700000 }

/-- Counterexample to C6 as stated: proposing a second transfer for
sender `+1` (new code `XY9Z2K`) leaves the prior active PendingTransfer
(code `AB12CD`) on file next to the new one, and the prior code still
confirms successfully afterwards — the prior proposal is not replaced or
invalidated. -/
theorem C6_prior_pending_survives_new_proposal :
    (createPendingTransaction envNewCode dbBase "+1" "+2" 4 "USDC").db.pendings
        = [pendAB, pendNew]
    ∧ exceptIsOk (confirmTransaction envOk wenvOk
        (createPendingTransaction envNewCode dbBase "+1" "+2" 4 "USDC").db
        "+1" "AB12CD").val = true :=
  ⟨rfl, by decide⟩

/-- C6 amended: `createPendingTransaction` only appends — the new
PendingTransfer (uppercased code, five-minute expiry) is added at the end
of the registry and every prior entry, active ones for the same sender
included, is left in place, so a prior confirmation code remains
confirmable. -/
theorem C6_proposal_appends_leaving_prior_entries
    (env : Env) (db : DBState) (senderPhone recipientPhone : String)
    (amount : Rat) (token : String) :
    (createPendingTransaction env db senderPhone recipientPhone amount
        token).db.pendings
      = db.pendings ++ [⟨db.nextPendingId, senderPhone, recipientPhone,
          amount, token, jsToUpper env.randCode, env.now + 300000⟩]
    ∧ (createPendingTransaction env db senderPhone recipientPhone amount
        token).val
      = .ok ⟨db.nextPendingId, senderPhone, recipientPhone, amount, token,
          jsToUpper env.randCode, env.now + 300000⟩ :=
  ⟨rfl, rfl⟩

/-- Environment whose key vault rejects every decryption. -/
def envVaultErr : Env :=
  { envOk with decryptWallet := fun _ => .error "corrupt" }

/-- Counterexample to C7 as stated: when wallet decryption fails, the
run writes the `pending` row and then a terminal `failed` row while no
settlement call is ever dispatched — the log refutes "the terminal
status (completed or failed) is written only after the adapter call
returns". -/
theorem C7_terminal_write_without_settlement_call :
    (confirmTransaction envVaultErr wenvOk dbBase "+1" "AB12CD").log =
      [Event.saveTransaction 0 .pending, Event.saveTransaction 0 .failed] :=
  rfl

/-! Helper lemmas. -/

/-- Uppercasing one character is idempotent: the image of the table is
disjoint from its domain. -/
theorem jsCharToUpper_idem (c : Char) :
    jsCharToUpper (jsCharToUpper c) = jsCharToUpper c := by
  cases h : lowerUpperTable.find? (fun p => p.fst == c) with
  | none =>
    have hc : jsCharToUpper c = c := by unfold jsCharToUpper; rw [h]
    rw [hc]
    exact hc
  | some p =>
    have hc : jsCharToUpper c = p.snd := by unfold jsCharToUpper; rw [h]
    have hp : p ∈ lowerUpperTable := List.mem_of_find?_eq_some h
    rw [hc]
    fin_cases hp <;> decide

/-- Uppercasing a string is idempotent. -/
theorem jsToUpper_idem (s : String) : jsToUpper (jsToUpper s) = jsToUpper s := by
  unfold jsToUpper
  simp [List.map_map, Function.comp_def, jsCharToUpper_idem]

/-- The catch handler only rewrites the transactions collection. -/
theorem execFail_pendings (db : DBState) (tid : Nat) (msg : String) :
    (execFail db tid msg).fst.pendings = db.pendings := by
  unfold execFail
  split <;> rfl

/-- Balance reconciliation only rewrites the users collection. -/
theorem updateUserBalances_pendings (env : Env) (wenv : WalletEnv)
    (db : DBState) (uid : Nat) :
    (updateUserBalances env wenv db uid).db.pendings = db.pendings := by
  unfold updateUserBalances
  repeat' split
  all_goals rfl

/-- Transaction creation never touches the pending-transfer registry. -/
theorem createTransaction_pendings (env : Env) (db : DBState)
    (sp rp : String) (a : Rat) (t : String) :
    (createTransaction env db sp rp a t).db.pendings = db.pendings := by
  unfold createTransaction createTransactionFinish
  repeat' split
  all_goals rfl

/-- Execution never touches the pending-transfer registry (it rewrites
transactions and, through reconciliation, users). -/
theorem executeTransaction_pendings (env : Env) (wenv : WalletEnv)
    (db : DBState) (tid : Nat) :
    (executeTransaction env wenv db tid).db.pendings = db.pendings := by
  unfold executeTransaction
  repeat' split
  all_goals simp [execFail_pendings, updateUserBalances_pendings]
  split
  all_goals try simp [execFail_pendings, updateUserBalances_pendings]
  all_goals split
  all_goals try simp [execFail_pendings, updateUserBalances_pendings]

/-- Failing lookup: `confirmTransaction` on a store whose registry has
no matching entry throws immediately and leaves everything unchanged. -/
theorem confirm_no_match (env : Env) (wenv : WalletEnv) (db : DBState)
    (s c : String) (h : findPendingTx db s c = none) :
    confirmTransaction env wenv db s c =
      ⟨.error "Invalid confirmation code or expired transaction", db, []⟩ := by
  unfold confirmTransaction
  rw [h]

/-- C2 (amended). A successful confirmation does consume the entry: when
`confirmTransaction` returns normally and the registry holds no two
distinct-id entries matching (sender, code), the consumed entry is gone,
so a second confirmation by the same sender with the same code fails with
`Invalid confirmation code or expired transaction` and writes no further
Transaction. (As stated the claim is false: on a failed execution the
rethrow skips `pendingTx.remove()`, leaving the entry confirmable —
see the counterexample.) -/
theorem C2_successful_confirm_consumes_pending
    (env env2 : Env) (wenv wenv2 : WalletEnv) (db : DBState)
    (s c : String) (tx : TransactionRec)
    (hok : (confirmTransaction env wenv db s c).val = .ok tx)
    (huniq : ∀ q1 ∈ db.pendings, ∀ q2 ∈ db.pendings,
      pendingMatches q1 s c = true → pendingMatches q2 s c = true →
      q1.id = q2.id) :
    (confirmTransaction env2 wenv2 (confirmTransaction env wenv db s c).db
        s c).val = .error "Invalid confirmation code or expired transaction"
    ∧ (confirmTransaction env2 wenv2 (confirmTransaction env wenv db s c).db
          s c).db.transactions
        = (confirmTransaction env wenv db s c).db.transactions := by
  have hshape : ∃ p, findPendingTx db s c = some p ∧
      (confirmTransaction env wenv db s c).db.pendings =
        db.pendings.filter (fun q => q.id != p.id) := by
    unfold confirmTransaction at hok ⊢
    rcases hfp : findPendingTx db s c with _ | p
    · simp [hfp] at hok
    · refine ⟨p, by simp [hfp], ?_⟩
      try rw [hfp] at hok
      try rw [hfp]
      try simp only at hok ⊢
      rcases hc : (createTransaction env db p.senderPhone p.recipientPhone
          p.amount p.token).val with e | tx1
      · try rw [hc] at hok
        simp at hok
      · try rw [hc] at hok
        try rw [hc]
        try simp only at hok ⊢
        rcases he : (executeTransaction env wenv
            (createTransaction env db p.senderPhone p.recipientPhone
              p.amount p.token).db tx1.id).val with e | ctx
        · try rw [he] at hok
          simp at hok
        · try rw [he]
          try simp only
          rw [executeTransaction_pendings, createTransaction_pendings]
  obtain ⟨p, hfp, hpend⟩ := hshape
  have hfp' : db.pendings.find? (fun q => pendingMatches q s c) = some p := hfp
  have hpmem : p ∈ db.pendings := List.mem_of_find?_eq_some hfp'
  have hpmatch : pendingMatches p s c = true := by
    have h2 := List.find?_some hfp'
    exact h2
  have hnone :
      findPendingTx (confirmTransaction env wenv db s c).db s c = none := by
    unfold findPendingTx
    rw [hpend, List.find?_eq_none]
    intro q hq
    rw [List.mem_filter] at hq
    obtain ⟨hqmem, hqid⟩ := hq
    intro hqmatch
    have hid := huniq q hqmem p hpmem hqmatch hpmatch
    simp only [bne_iff_ne, ne_eq] at hqid
    exact hqid hid
  rw [confirm_no_match env2 wenv2 (confirmTransaction env wenv db s c).db
    s c hnone]
  exact ⟨rfl, rfl⟩

/-- Witness for C2 (amended): the successful confirm on `dbBase` consumes
the only matching entry, so the immediate retry fails and writes nothing
further. -/
theorem C2_successful_confirm_consumes_pending_witness :
    ((confirmTransaction envOk wenvOk dbBase "+1" "AB12CD").val =
        .ok txPendCompleted
     ∧ (∀ q1 ∈ dbBase.pendings, ∀ q2 ∈ dbBase.pendings,
          pendingMatches q1 "+1" "AB12CD" = true →
          pendingMatches q2 "+1" "AB12CD" = true → q1.id = q2.id))
    ∧ ((confirmTransaction envOk wenvOk
          (confirmTransaction envOk wenvOk dbBase "+1" "AB12CD").db
          "+1" "AB12CD").val =
        .error "Invalid confirmation code or expired transaction"
       ∧ (confirmTransaction envOk wenvOk
            (confirmTransaction envOk wenvOk dbBase "+1" "AB12CD").db
            "+1" "AB12CD").db.transactions =
          (confirmTransaction envOk wenvOk dbBase "+1" "AB12CD").db.transactions) :=
  ⟨⟨by decide, by decide⟩,
   C2_successful_confirm_consumes_pending envOk envOk wenvOk wenvOk dbBase
     "+1" "AB12CD" txPendCompleted (by decide) (by decide)⟩

/-- C8. When the recipient phone has no Account and `createTransaction`
returns normally, the run first persists the placeholder recipient (new
custodial address, encrypted key, unverified) and only then writes the
`pending` ledger entry whose `recipient` field references it; afterwards
the placeholder is retrievable by that id. -/
theorem C8_placeholder_persisted_before_ledger_entry
    (env : Env) (db : DBState) (s r : String) (amount : Rat)
    (token : String) (tx : TransactionRec)
    (hr : findUserByPhone db r = none)
    (hfresh : ∀ u ∈ db.users, u.id ≠ db.nextUserId)
    (hok : (createTransaction env db s r amount token).val = .ok tx) :
    tx.recipient = db.nextUserId
    ∧ (createTransaction env db s r amount token).log =
        [Event.saveUser db.nextUserId,
         Event.saveTransaction tx.id .pending]
    ∧ findUserById (createTransaction env db s r amount token).db
        db.nextUserId = some (placeholderUser env db r) := by
  unfold createTransaction at hok ⊢
  rcases hs : findUserByPhone db s with _ | sender
  · try rw [hs] at hok
    simp at hok
  · try rw [hs] at hok
    try rw [hs]
    simp only at hok ⊢
    by_cases hbal : jsLtUndef (sender.tokenBalances.get token) amount = true
    · rw [if_pos hbal] at hok
      simp at hok
    · rw [if_neg hbal] at hok ⊢
      rw [hr] at hok ⊢
      unfold createTransactionFinish at hok ⊢
      simp only at hok ⊢
      obtain rfl : _ = tx := by simpa using hok
      refine ⟨rfl, rfl, ?_⟩
      unfold findUserById
      simp only
      rw [List.find?_append]
      have h1 : db.users.find? (fun u => u.id == db.nextUserId) = none := by
        rw [List.find?_eq_none]
        intro u hu
        simpa using hfresh u hu
      rw [h1]
      simp [placeholderUser]

/-- Pending ledger row written by the C8 witness run: it references the
freshly created placeholder account with id 3. -/
def txToNine : TransactionRec :=
  { id := 0, sender := 1, recipient := 3, senderPhone := "+1",
    recipientPhone := "+9", amount := 3, token := "USDC",
    status := .pending, signature := none, errorMessage := none,
    completedAt := none }

/-- Witness for C8: `+9` has no account in `dbBase`; the run saves the
placeholder with id 3, then the pending ledger row referencing it. -/
theorem C8_placeholder_persisted_before_ledger_entry_witness :
    (findUserByPhone dbBase "+9" = none
     ∧ (∀ u ∈ dbBase.users, u.id ≠ dbBase.nextUserId)
     ∧ (createTransaction envOk dbBase "+1" "+9" 3 "USDC").val = .ok txToNine)
    ∧ (txToNine.recipient = dbBase.nextUserId
       ∧ (createTransaction envOk dbBase "+1" "+9" 3 "USDC").log =
           [Event.saveUser dbBase.nextUserId,
            Event.saveTransaction txToNine.id .pending]
       ∧ findUserById (createTransaction envOk dbBase "+1" "+9" 3 "USDC").db
           dbBase.nextUserId = some (placeholderUser envOk dbBase "+9")) :=
  ⟨⟨by decide, by decide, by decide⟩,
   C8_placeholder_persisted_before_ledger_entry envOk dbBase "+1" "+9" 3
     "USDC" txToNine (by decide) (by decide) (by decide)⟩

/-- C9. A proposal stores the uppercased code, and `confirmTransaction`
uppercases the attempted code before comparing: for any attempt equal to
the stored code up to letter case, the registry lookup finds an entry,
and the whole confirm run is identical to confirming with the stored
code itself — code comparison is case-insensitive. -/
theorem C9_code_comparison_case_insensitive
    (env : Env) (db : DBState) (s r attempt : String) (amount : Rat)
    (token : String) (p : PendingRec)
    (hp : (createPendingTransaction env db s r amount token).val = .ok p)
    (hcase : jsToUpper attempt = jsToUpper p.confirmationCode) :
    (findPendingTx (createPendingTransaction env db s r amount token).db s
        attempt).isSome = true
    ∧ ∀ env2 wenv2,
        confirmTransaction env2 wenv2
            (createPendingTransaction env db s r amount token).db s attempt
          = confirmTransaction env2 wenv2
              (createPendingTransaction env db s r amount token).db s
              p.confirmationCode := by
  obtain rfl : _ = p := by simpa [createPendingTransaction] using hp
  have hfix : jsToUpper (jsToUpper env.randCode) = jsToUpper env.randCode :=
    jsToUpper_idem env.randCode
  have hfind : ∀ code, jsToUpper code = jsToUpper env.randCode →
      findPendingTx (createPendingTransaction env db s r amount token).db s
          code
        = ((createPendingTransaction env db s r amount token).db.pendings.find?
            (fun q => q.senderPhone == s
              && q.confirmationCode == jsToUpper env.randCode)) := by
    intro code hcode
    unfold findPendingTx pendingMatches
    rw [hcode]
  constructor
  · rw [hfind attempt (by simpa [hfix] using hcase)]
    unfold createPendingTransaction
    simp only
    rw [List.find?_append]
    rcases h1 : db.pendings.find? (fun q => q.senderPhone == s
        && q.confirmationCode == jsToUpper env.randCode) with _ | q
    · simp
    · simp
  · intro env2 wenv2
    unfold confirmTransaction
    rw [hfind attempt (by simpa [hfix] using hcase),
      hfind (jsToUpper env.randCode) hfix]

/-- Pending transfer as generated by the C9 witness run (raw random code
`ab12cd`, stored uppercased). -/
def pendGen : PendingRec :=
  { id := 6, senderPhone := "+1", recipientPhone := "+2", amount := 4,
    token := "USDC", confirmationCode := "AB12CD", expiresAt := 700000 }

/-- Witness for C9: confirming with `Ab12Cd` behaves exactly like
confirming with the stored `AB12CD`. -/
theorem C9_code_comparison_case_insensitive_witness :
    ((createPendingTransaction envOk dbBase "+1" "+2" 4 "USDC").val =
        .ok pendGen
     ∧ jsToUpper "Ab12Cd" = jsToUpper pendGen.confirmationCode)
    ∧ ((findPendingTx
          (createPendingTransaction envOk dbBase "+1" "+2" 4 "USDC").db
          "+1" "Ab12Cd").isSome = true
       ∧ confirmTransaction envOk wenvOk
           (createPendingTransaction envOk dbBase "+1" "+2" 4 "USDC").db
           "+1" "Ab12Cd"
         = confirmTransaction envOk wenvOk
             (createPendingTransaction envOk dbBase "+1" "+2" 4 "USDC").db
             "+1" pendGen.confirmationCode) :=
  ⟨⟨by decide, by decide⟩,
   (C9_code_comparison_case_insensitive envOk dbBase "+1" "+2" "Ab12Cd" 4
     "USDC" pendGen (by decide) (by decide)).1,
   (C9_code_comparison_case_insensitive envOk dbBase "+1" "+2" "Ab12Cd" 4
     "USDC" pendGen (by decide) (by decide)).2 envOk wenvOk⟩

/-- Scanning check of the settlement-ordering discipline over an event
log, threading two flags: "a `pending` Transaction save has happened" and
"a settlement call has returned success". The scan demands that any
settlement call (either outcome) come after a `pending` save, and that
any `completed` save come after a successful settlement return; `failed`
saves and all other events are unconstrained. -/
def orderOk : Bool → Bool → List Event → Bool
  | _, _, [] => true
  | _, s, .saveTransaction _ .pending :: r => orderOk true s r
  | p, s, .saveTransaction _ .failed :: r => orderOk p s r
  | p, s, .saveTransaction _ .completed :: r => s && orderOk p s r
  | p, _, .settlementOk _ _ :: r => p && orderOk p true r
  | p, s, .settlementErr _ _ :: r => p && orderOk p s r
  | p, s, .saveUser _ :: r => orderOk p s r
  | p, s, .savePending _ :: r => orderOk p s r
  | p, s, .removePending _ :: r => orderOk p s r
  | p, s, .reconcile _ :: r => orderOk p s r

set_option maxHeartbeats 1000000 in
/-- C7 (amended). Over every `confirmTransaction` run, the event log
passes the settlement-ordering scan started with both flags down: the
`pending` ledger write precedes any settlement-adapter call, and a
`completed` status is written only after the adapter call has returned
success. (As stated the claim also asserts that a `failed` terminal
write only happens after the adapter call returns; that part is false —
a pre-settlement failure such as wallet decryption writes `failed` with
no adapter call at all, see the counterexample.) -/
theorem C7_pending_precedes_settlement_completed_after
    (env : Env) (wenv : WalletEnv) (db : DBState) (s c : String) :
    orderOk false false (confirmTransaction env wenv db s c).log = true := by
  unfold confirmTransaction createTransaction createTransactionFinish
    executeTransaction updateUserBalances execFail
  repeat' split
  all_goals try simp [orderOk]
  all_goals try split
  all_goals try repeat' split
  all_goals try simp [orderOk]
